import Mathlib

/-!
Shallow embedding of a serverless GitHub webhook component consisting of

* a random shared-secret resource provider (from random.ts),
* a dynamic webhook-registration resource provider (check, diff, create,
  update) talking to the GitHub REST API, and
* the webhook ingestion route handler that authenticates inbound
  deliveries against an HMAC-SHA1 signature header before dispatching
  them to an application handler.

External collaborators are modelled as explicit function parameters:
the GitHub REST client is a function from the issued API call to a
response, the HMAC-SHA1 primitive is a function from key and message
bytes to a hex string, the JSON parser is a partial function on body
bytes, and the cryptographically secure random source is a function
from a requested byte count to a byte list.  Everything else is
translated directly from the TypeScript source.  JavaScript strings
become Lean strings, `undefined`-able values become `Option`, and
JavaScript truthiness of an optional string (undefined and the empty
string are falsy) is made explicit.
-/

/-- A JavaScript value for the `byteCount` property of the random
resource: either `undefined` or a number.  Only integral numbers occur
in this program, so numbers are modelled as `Int`. -/
inductive JSValue where
  | undef
  | num (n : Int)
deriving DecidableEq

/-- JavaScript `isNaN(x)`: `isNaN(undefined)` is `true` (coercion of
`undefined` to a number yields `NaN`); an integral number is never
`NaN`. -/
def jsIsNaN : JSValue → Bool
  | JSValue.undef => true
  | JSValue.num _ => false

/-- JavaScript `x <= 0`: `undefined <= 0` is `false` (the comparison
with `NaN` is false); for a number it is the numeric comparison. -/
def jsLeZero : JSValue → Bool
  | JSValue.undef => false
  | JSValue.num n => n ≤ 0

/-- JavaScript truthiness of a possibly-undefined string: `undefined`
and the empty string are falsy, every other string is truthy. -/
def jsTruthy : Option String → Bool
  | none => false
  | some s => !(s == "")

/-- One entry of the `failedChecks` array returned by a dynamic
provider's `check`: the offending property name and a reason. -/
structure CheckFailure where
  property : String
  reason : String
deriving DecidableEq

/-- UTF-8 encoding of one character as byte values (the standard 1-4
byte encoding; Lean characters exclude surrogates, matching
well-formed JavaScript strings). -/
def utf8EncodeCharNat (c : Char) : List Nat :=
  let n := c.toNat
  if n < 128 then [n]
  else if n < 2048 then [192 + n / 64, 128 + n % 64]
  else if n < 65536 then [224 + n / 4096, 128 + n / 64 % 64, 128 + n % 64]
  else [240 + n / 262144, 128 + n / 4096 % 64, 128 + n / 64 % 64, 128 + n % 64]

/-- The byte sequence of `Buffer.from(s, "utf8")`. -/
def utf8Bytes (s : String) : List Nat :=
  s.data.foldr (fun c acc => utf8EncodeCharNat c ++ acc) []

/-- The standard base64 alphabet. -/
def base64Alphabet : List Char :=
  "ABCDEFGHIJKLMNOPQRSTUVWXYZabcdefghijklmnopqrstuvwxyz0123456789+/".data

/-- The base64 digit character for a 6-bit value. -/
def base64CharOf (n : Nat) : Char :=
  base64Alphabet.getD n 'A'

/-- The 6-bit value of a base64 digit character, `none` for characters
outside the alphabet (including the padding character). -/
def base64ValueOf (c : Char) : Option Nat :=
  base64Alphabet.findIdx? (fun x => x = c)

/-- Base64 encoding of a byte list, three bytes to four digits with
padding, as produced by `Buffer.toString("base64")`. -/
def base64EncodeChunks : List Nat → List Char
  | [] => []
  | [a] => [base64CharOf (a / 4 % 64), base64CharOf (a % 4 * 16), '=', '=']
  | [a, b] => [base64CharOf (a / 4 % 64), base64CharOf (a % 4 * 16 + b / 16),
      base64CharOf (b % 16 * 4), '=']
  | a :: b :: c :: rest =>
      base64CharOf (a / 4 % 64) :: base64CharOf (a % 4 * 16 + b / 16) ::
      base64CharOf (b % 16 * 4 + c / 64) :: base64CharOf (c % 64) ::
      base64EncodeChunks rest

/-- Base64 encoding of a byte list as a string (model of
`Buffer.toString("base64")`). -/
def base64Encode (bs : List Nat) : String :=
  String.mk (base64EncodeChunks bs)

/-- Decoding of a list of 6-bit base64 digit values back into bytes,
four digits to three bytes, with a lenient tail as in Node.js. -/
def base64DecodeGroups : List Nat → List Nat
  | [] => []
  | [_] => []
  | [a, b] => [a * 4 + b / 16]
  | [a, b, c] => [a * 4 + b / 16, b % 16 * 16 + c / 4]
  | a :: b :: c :: d :: rest =>
      (a * 4 + b / 16) :: (b % 16 * 16 + c / 4) :: (c % 4 * 64 + d) ::
      base64DecodeGroups rest

/-- The byte sequence of `Buffer.from(s, "base64")`: characters outside
the base64 alphabet (including padding) are ignored, the remaining
digits are decoded in groups of four. -/
def base64Decode (s : String) : List Nat :=
  base64DecodeGroups (s.data.filterMap base64ValueOf)

/-!
Random secret resource provider (random.ts).
-/

/-- The `check` operation of the random resource provider, translated
from the source:

* push a failure when `news["byteCount"] === undefined`;
* push a failure when `!isNaN(news["byteCount"]) || news["byteCount"] <= 0`.

The single property read from the `news` bag is passed directly. -/
def RandomProvider.check (news_byteCount : JSValue) : List CheckFailure :=
  (if news_byteCount = JSValue.undef then
    [{ property := "byteCount", reason := "required property \x27byteCount\x27 missing" }]
  else []) ++
  (if !jsIsNaN news_byteCount || jsLeZero news_byteCount then
    [{ property := "byteCount", reason := "\x27byteCount\x27 should be a positive number" }]
  else [])

/-- The `outs` record returned by the random provider's `create`. -/
structure RandomOuts where
  value : String
deriving DecidableEq

/-- The result record of the random provider's `create`: the resource
id and the output properties. -/
structure RandomCreateResult where
  id : String
  outs : RandomOuts
deriving DecidableEq

/-- The `create` operation of the random resource provider, translated
from the source: it computes `crypto.randomBytes(32).toString("base64")`
— the argument to the random source is the literal `32`; the `inputs`
property bag (carrying `byteCount`) is not consulted — and returns that
string as both the resource id and the `value` output.  The secure
random source is the explicit parameter `randomBytes`. -/
def RandomProvider.create (randomBytes : Nat → List Nat)
    (inputs_byteCount : JSValue) : RandomCreateResult :=
  let value := base64Encode (randomBytes 32)
  { id := value, outs := { value := value } }

/-!
Webhook registration resource provider (GithubWebhookProvider).
-/

/-- The property bag of a webhook registration resource.  Every
property may be `undefined` in the source, hence `Option`. -/
structure WebhookInputs where
  url : Option String
  owner : Option String
  repo : Option String
  org : Option String
  events : Option (List String)
  secret : Option String
deriving DecidableEq

/-- The `check` operation of the webhook provider, translated from the
source: four independent `if` statements each push one failure.  The
`olds` argument is accepted and ignored exactly as in the source. -/
def GithubWebhookProvider.check (olds news : WebhookInputs) : List CheckFailure :=
  (if news.url = none then
    [{ property := "url", reason := "required property \x27url\x27 missing" }]
  else []) ++
  (if news.org ≠ none ∧ (news.owner ≠ none ∨ news.repo ≠ none) then
    [{ property := "org", reason := "when \x27org\x27 is set, \x27owner\x27 and \x27repo\x27 must not be" }]
  else []) ++
  (if news.owner ≠ none ∧ news.repo = none then
    [{ property := "repo", reason := "when \x27owner\x27 is set, \x27repo\x27 must be as well" }]
  else []) ++
  (if news.repo ≠ none ∧ news.owner = none then
    [{ property := "owner", reason := "when \x27repo\x27 is set, \x27owner\x27 must be as well" }]
  else [])

/-- The `diff` operation of the webhook provider, translated from the
source: the loop over `["owner", "repo"]` followed by the `org`
comparison, pushing the property name whenever old and new values
differ (JavaScript `!==` on possibly-undefined strings). -/
def GithubWebhookProvider.diff (olds news : WebhookInputs) : List String :=
  ((if olds.owner ≠ news.owner then ["owner"] else []) ++
   (if olds.repo ≠ news.repo then ["repo"] else [])) ++
  (if olds.org ≠ news.org then ["org"] else [])

/-- The `config` object sent with a hook creation call. -/
structure HookConfig where
  content_type : String
  url : Option String
  secret : Option String
deriving DecidableEq

/-- The parameters shared by both hook creation endpoints
(`commonParams` in the source). -/
structure HookCommonParams where
  name : String
  events : Option (List String)
  config : HookConfig
deriving DecidableEq

/-- A call issued to the GitHub REST client by `create`: either the
organization-level or the repository-level hook creation endpoint,
with the scope values and the common parameters attached. -/
inductive HookApiCall where
  | orgCreateHook (org : Option String) (params : HookCommonParams)
  | repoCreateHook (owner repo : Option String) (params : HookCommonParams)
deriving DecidableEq

/-- A response from the GitHub REST client: the HTTP status and the
`data.id` field (the remote hook identifier, a number). -/
structure HookResponse where
  status : Nat
  dataId : Int
deriving DecidableEq

/-- The error raised by `create` on a non-201 status: it carries the
full response (the source throws `new Error` with the serialized
response). -/
inductive CreateError where
  | badResponse (res : HookResponse)
deriving DecidableEq

/-- The result record of the webhook provider's `create`: the remote
hook identifier rendered as a string. -/
structure WebhookCreateResult where
  id : String
deriving DecidableEq

/-- The `create` operation of the webhook provider, translated from the
source: build `commonParams`, call `octokit.orgs.createHook` when
`inputs["org"]` is truthy and `octokit.repos.createHook` otherwise,
throw on a status other than 201, and otherwise return the remote id
interpolated into a string.  The REST client is the explicit parameter
`octokit`. -/
def GithubWebhookProvider.create (octokit : HookApiCall → HookResponse)
    (inputs : WebhookInputs) : Except CreateError WebhookCreateResult :=
  let commonParams : HookCommonParams :=
    { name := "web", events := inputs.events,
      config := { content_type := "json", url := inputs.url, secret := inputs.secret } }
  let res :=
    if jsTruthy inputs.org then
      octokit (HookApiCall.orgCreateHook inputs.org commonParams)
    else
      octokit (HookApiCall.repoCreateHook inputs.owner inputs.repo commonParams)
  if res.status ≠ 201 then Except.error (CreateError.badResponse res)
  else Except.ok { id := toString res.dataId }

/-- The `config` object sent with an edit-hook call: note that it has
no `secret` member — the source does not resend the secret on update. -/
structure EditHookConfig where
  content_type : String
  url : Option String
deriving DecidableEq

/-- The parameters of `octokit.repos.editHook` as issued by `update`. -/
structure EditHookParams where
  hook_id : String
  owner : Option String
  repo : Option String
  events : Option (List String)
  config : EditHookConfig
deriving DecidableEq

/-- The `outs` record returned by the webhook provider's `update`: the
`data.id` of the response, returned as the number it is. -/
structure WebhookUpdateOuts where
  id : Int
deriving DecidableEq

/-- The result record of the webhook provider's `update`. -/
structure WebhookUpdateResult where
  outs : WebhookUpdateOuts
deriving DecidableEq

/-- The `update` operation of the webhook provider, translated from the
source: it always calls `octokit.repos.editHook` with the hook id and
the proposed `owner`, `repo`, `events` and `url` (no secret in the
config), and returns `res.data.id` without examining the response
status.  The `olds` argument is accepted and ignored exactly as in the
source. -/
def GithubWebhookProvider.update (octokit : EditHookParams → HookResponse)
    (id : String) (olds news : WebhookInputs) : WebhookUpdateResult :=
  let res := octokit
    { hook_id := id, owner := news.owner, repo := news.repo, events := news.events,
      config := { content_type := "json", url := news.url } }
  { outs := { id := res.dataId } }

/-!
Webhook ingestion gateway (the POST route handler of the API).
-/

/-- An inbound HTTP request as seen by the route handler: the three
GitHub headers (`X-GitHub-Event`, `X-GitHub-Delivery`,
`X-Hub-Signature`, named after the local variables of the source), the
body, and the transport flag telling whether the body is
base64-encoded. -/
structure InboundRequest where
  eventType : Option String
  eventId : Option String
  eventSig : Option String
  body : Option String
  isBase64Encoded : Bool
deriving DecidableEq

/-- The `{statusCode, body}` record the route handler returns. -/
structure RouteResponse where
  statusCode : Nat
  body : String
deriving DecidableEq

/-- An error escaping the route handler to the HTTP substrate:

* `lengthMismatch`: the `TypeError` thrown by `crypto.timingSafeEqual`
  when the two buffers have different byte lengths;
* `jsonParseError`: the `SyntaxError` thrown by `JSON.parse`;
* `handlerError e`: an error raised by the application handler. -/
inductive GatewayError (E : Type) where
  | lengthMismatch
  | jsonParseError
  | handlerError (e : E)
deriving DecidableEq

/-- The argument record handed to the application handler
(`GitHubWebhookRequest` in the source). -/
structure GitHubWebhookRequest (J : Type) where
  request : InboundRequest
  type : String
  id : String
  data : J
deriving DecidableEq

/-- The raw body bytes the gateway verifies:
`Buffer.from(req.body, req.isBase64Encoded ? "base64" : "utf8")`. -/
def requestBodyBytes (req : InboundRequest) : List Nat :=
  if req.isBase64Encoded then base64Decode (req.body.getD "")
  else utf8Bytes (req.body.getD "")

/-- The digest string the gateway computes and compares the signature
header against: `sha1=` followed by the hex HMAC-SHA1 of the raw body
bytes under the shared secret. -/
def computedDigest (hmacSha1Hex : String → List Nat → String)
    (secret : String) (req : InboundRequest) : String :=
  "sha1=" ++ hmacSha1Hex secret (requestBodyBytes req)

/-- The log line printed on a signature mismatch (the source template
literal, misspelling included). -/
def badSignatureLog (eventId digest eventSig : String) : String :=
  "[" ++ eventId ++ "] ignorning, bad signature " ++ digest ++ " != " ++ eventSig

/-- The POST route handler of the gateway, translated from the source.

The result is the list of log lines printed together with either a
`RouteResponse` or an error escaping to the HTTP substrate.  Control
flow follows the source exactly:

1. if any of the three headers or the body is falsy, return 400
   "missing parameter";
2. reconstruct the raw body bytes (base64-decoding when flagged);
3. compute `sha1=<hex HMAC-SHA1>` of those bytes under the secret;
4. `crypto.timingSafeEqual(Buffer.from(eventSig), Buffer.from(digest))`
   throws when the byte lengths differ; when it returns `false`, log
   and return 400 "bad signature";
5. `JSON.parse` the body (its throw is `jsonParseError`);
6. await the application handler (its raise is `handlerError`);
7. return 200 with an empty body.

The HMAC primitive, the JSON parser and the application handler are
the explicit parameters `hmacSha1Hex`, `jsonParse` and `handler`. -/
def routeHandler {J E : Type} (hmacSha1Hex : String → List Nat → String)
    (jsonParse : List Nat → Option J)
    (handler : GitHubWebhookRequest J → Except E Unit)
    (secret : String) (req : InboundRequest) :
    List String × Except (GatewayError E) RouteResponse :=
  if jsTruthy req.eventType && jsTruthy req.eventId &&
      jsTruthy req.eventSig && jsTruthy req.body then
    let eventType := req.eventType.getD ""
    let eventId := req.eventId.getD ""
    let eventSig := req.eventSig.getD ""
    let body := requestBodyBytes req
    let digest := computedDigest hmacSha1Hex secret req
    if (utf8Bytes eventSig).length ≠ (utf8Bytes digest).length then
      ([], Except.error GatewayError.lengthMismatch)
    else if utf8Bytes eventSig = utf8Bytes digest then
      match jsonParse body with
      | none => ([], Except.error GatewayError.jsonParseError)
      | some event =>
        match handler { request := req, type := eventType, id := eventId, data := event } with
        | Except.ok _ => ([], Except.ok { statusCode := 200, body := "" })
        | Except.error e => ([], Except.error (GatewayError.handlerError e))
    else
      ([badSignatureLog eventId digest eventSig],
       Except.ok { statusCode := 400, body := "bad signature" })
  else
    ([], Except.ok { statusCode := 400, body := "missing parameter" })

/-!
Concrete instances of the external collaborators, used to evaluate
closed statements.
-/

/-- A concrete stand-in for the HMAC-SHA1 hex primitive: like the real
one it returns a 40-character lowercase hex string. -/
def hmac0 : String → List Nat → String :=
  fun _ _ => "0123456789abcdef0123456789abcdef01234567"

/-- A concrete JSON parser stand-in that succeeds on every body. -/
def jsonParse0 : List Nat → Option Nat :=
  fun _ => some 7

/-- A concrete application handler that completes normally. -/
def handler0 : GitHubWebhookRequest Nat → Except String Unit :=
  fun _ => Except.ok ()

/-- A concrete secure random source: on request `k` it returns `k`
bytes. -/
def rnd0 : Nat → List Nat :=
  fun k => (List.range k).map (fun i => i % 256)

/-- A concrete GitHub REST client whose organization endpoint assigns
hook id 1 and whose repository endpoint assigns hook id 7, both with
status 201. -/
def octokit0 : HookApiCall → HookResponse := fun c =>
  match c with
  | HookApiCall.orgCreateHook _ _ => { status := 201, dataId := 1 }
  | HookApiCall.repoCreateHook _ _ _ => { status := 201, dataId := 7 }

/-- A request with all four inputs present whose signature header is
the single byte "x". -/
def reqSigShort : InboundRequest :=
  { eventType := some "push", eventId := some "42", eventSig := some "x",
    body := some "[]", isBase64Encoded := false }

/-- A request with all four inputs present whose signature header is a
9-byte string of the `sha1=` shape but not 45 bytes long. -/
def reqSigOdd : InboundRequest :=
  { eventType := some "push", eventId := some "42", eventSig := some "sha1=0123",
    body := some "[]", isBase64Encoded := false }

/-- A request whose signature header has the length of a full
`sha1=<hex>` digest but differs from the digest `hmac0` yields in the
final character. -/
def reqSigWrong : InboundRequest :=
  { eventType := some "push", eventId := some "42",
    eventSig := some "sha1=0123456789abcdef0123456789abcdef01234566",
    body := some "[]", isBase64Encoded := false }

/-- A request whose signature header is exactly the digest `hmac0`
yields. -/
def reqSigGood : InboundRequest :=
  { eventType := some "push", eventId := some "42",
    eventSig := some "sha1=0123456789abcdef0123456789abcdef01234567",
    body := some "[]", isBase64Encoded := false }

/-- A request missing the signature header. -/
def reqNoSig : InboundRequest :=
  { eventType := some "push", eventId := some "42", eventSig := none,
    body := some "[]", isBase64Encoded := false }

/-- Webhook inputs with an organization scope. -/
def inputsOrg : WebhookInputs :=
  { url := some "https://example.invalid/hook", owner := none, repo := none,
    org := some "myorg", events := some ["push"], secret := some "s" }

/-- Webhook inputs whose `org` is set to the empty string and whose
`owner` and `repo` are unset. -/
def inputsEmptyOrg : WebhookInputs :=
  { url := some "https://example.invalid/hook", owner := none, repo := none,
    org := some "", events := some ["push"], secret := some "s" }

/-- Webhook inputs with a repository scope. -/
def inputsRepo : WebhookInputs :=
  { url := some "https://example.invalid/hook", owner := some "me",
    repo := some "r", org := none, events := some ["push"], secret := some "s" }

/-- The same repository-scoped inputs with a different event list. -/
def inputsRepoEvents : WebhookInputs :=
  { inputsRepo with events := some ["issues"] }

/-- Webhook inputs violating several `check` constraints at once:
`url` missing, `org` set together with `owner`, `repo` unset. -/
def newsConflict : WebhookInputs :=
  { url := none, owner := some "me", repo := none, org := some "o",
    events := none, secret := none }

/-!
Claims about the ingestion gateway.
-/

/-- C3: an inbound request in which any of the four required inputs
(the three GitHub headers or the body) is falsy is answered with
status 400 and the diagnostic body "missing parameter".  The result is
the same for every HMAC primitive, JSON parser, application handler
and secret, so no signature computation, no JSON parsing and no
handler invocation takes place. -/
theorem gateway_missing_parameter_rejected_400 {J E : Type}
    (hmacSha1Hex : String → List Nat → String) (jsonParse : List Nat → Option J)
    (handler : GitHubWebhookRequest J → Except E Unit) (secret : String)
    (req : InboundRequest)
    (hmiss : (jsTruthy req.eventType && jsTruthy req.eventId &&
      jsTruthy req.eventSig && jsTruthy req.body) = false) :
    routeHandler hmacSha1Hex jsonParse handler secret req =
      ([], Except.ok { statusCode := 400, body := "missing parameter" }) := by
  simp [routeHandler, hmiss]

/-- C3 witness: a concrete request missing the signature header is
rejected with 400 "missing parameter". -/
theorem gateway_missing_parameter_rejected_400_witness :
    routeHandler hmac0 jsonParse0 handler0 "s" reqNoSig =
      ([], Except.ok { statusCode := 400, body := "missing parameter" }) :=
  gateway_missing_parameter_rejected_400 hmac0 jsonParse0 handler0 "s" reqNoSig (by decide)

/-- C1 counterexample: a concrete request with all four inputs present
whose signature header ("x") differs from the computed digest is not
answered with a 400 response: `crypto.timingSafeEqual` throws on the
unequal buffer lengths and the error escapes to the HTTP substrate. -/
theorem gateway_mismatch_400_cex :
    (jsTruthy reqSigShort.eventType && jsTruthy reqSigShort.eventId &&
      jsTruthy reqSigShort.eventSig && jsTruthy reqSigShort.body) = true ∧
    reqSigShort.eventSig.getD "" ≠ computedDigest hmac0 "s" reqSigShort ∧
    routeHandler hmac0 jsonParse0 handler0 "s" reqSigShort =
      ([], Except.error GatewayError.lengthMismatch) :=
  ⟨rfl, by decide, rfl⟩

/-- C1 (amended): an inbound request with all four inputs present
whose signature header has the same byte length as the computed
`sha1=<hex>` digest string but different bytes is answered with status
400 and the body "bad signature", and the mismatch is logged.  The
result is the same for every JSON parser and application handler, so
the body is never JSON-parsed and the handler is never invoked. -/
theorem gateway_equal_length_mismatch_rejected_400 {J E : Type}
    (hmacSha1Hex : String → List Nat → String) (secret : String)
    (req : InboundRequest)
    (hpresent : (jsTruthy req.eventType && jsTruthy req.eventId &&
      jsTruthy req.eventSig && jsTruthy req.body) = true)
    (hlen : (utf8Bytes (req.eventSig.getD "")).length =
      (utf8Bytes (computedDigest hmacSha1Hex secret req)).length)
    (hne : utf8Bytes (req.eventSig.getD "") ≠
      utf8Bytes (computedDigest hmacSha1Hex secret req)) :
    ∀ (jsonParse : List Nat → Option J)
      (handler : GitHubWebhookRequest J → Except E Unit),
      routeHandler hmacSha1Hex jsonParse handler secret req =
        ([badSignatureLog (req.eventId.getD "")
            (computedDigest hmacSha1Hex secret req) (req.eventSig.getD "")],
         Except.ok { statusCode := 400, body := "bad signature" }) := by
  intro jsonParse handler
  simp [routeHandler, hpresent, hlen, hne]

/-- C1 witness: a concrete 45-byte signature header differing from the
computed digest in its last character is answered with 400 "bad
signature" and the mismatch is logged. -/
theorem gateway_equal_length_mismatch_rejected_400_witness :
    routeHandler hmac0 jsonParse0 handler0 "s" reqSigWrong =
      ([badSignatureLog "42" (computedDigest hmac0 "s" reqSigWrong)
          "sha1=0123456789abcdef0123456789abcdef01234566"],
       Except.ok { statusCode := 400, body := "bad signature" }) :=
  gateway_equal_length_mismatch_rejected_400 hmac0 "s" reqSigWrong
    (by decide) (by decide) (by decide) jsonParse0 handler0

/-- C2: an inbound request with all four inputs present whose
signature header equals `sha1=` followed by the hex HMAC-SHA1 of the
raw body bytes (base64-decoded first when the transport flags the body
as base64-encoded) under the shared secret, and whose body bytes the
JSON parser accepts, is dispatched: the application handler is invoked
with the request, the event type, the delivery id and the parsed
payload; when it completes the response is status 200 with an empty
body, and when it raises the error propagates to the gateway's
caller. -/
theorem gateway_valid_signature_dispatches_handler {J E : Type}
    (hmacSha1Hex : String → List Nat → String) (jsonParse : List Nat → Option J)
    (handler : GitHubWebhookRequest J → Except E Unit) (secret : String)
    (req : InboundRequest) (payload : J)
    (hpresent : (jsTruthy req.eventType && jsTruthy req.eventId &&
      jsTruthy req.eventSig && jsTruthy req.body) = true)
    (hsig : req.eventSig.getD "" = computedDigest hmacSha1Hex secret req)
    (hparse : jsonParse (requestBodyBytes req) = some payload) :
    routeHandler hmacSha1Hex jsonParse handler secret req =
      ([], match handler (GitHubWebhookRequest.mk req (req.eventType.getD "")
              (req.eventId.getD "") payload) with
           | Except.ok _ => Except.ok { statusCode := 200, body := "" }
           | Except.error e => Except.error (GatewayError.handlerError e)) := by
  simp [routeHandler, hpresent, hsig, hparse]
  cases handler (GitHubWebhookRequest.mk req (req.eventType.getD "")
    (req.eventId.getD "") payload) <;> rfl

/-- C2 witness: a concrete request carrying exactly the computed
digest is dispatched to a handler that completes, and the response is
status 200 with an empty body. -/
theorem gateway_valid_signature_dispatches_handler_witness :
    routeHandler hmac0 jsonParse0 handler0 "s" reqSigGood =
      ([], Except.ok { statusCode := 200, body := "" }) :=
  (gateway_valid_signature_dispatches_handler hmac0 jsonParse0 handler0 "s"
    reqSigGood 7 (by decide) (by decide) rfl).trans rfl

/-- C9: an inbound request with all four inputs present whose
signature header's byte length differs from the 45 bytes of the
computed `sha1=<hex>` digest string makes `crypto.timingSafeEqual`
throw, so the request yields a propagated error to the HTTP substrate
rather than the 400 "bad signature" response.  The result is the same
for every JSON parser and application handler, so the handler is never
invoked. -/
theorem gateway_signature_length_mismatch_throws {J E : Type}
    (hmacSha1Hex : String → List Nat → String) (secret : String)
    (req : InboundRequest)
    (hpresent : (jsTruthy req.eventType && jsTruthy req.eventId &&
      jsTruthy req.eventSig && jsTruthy req.body) = true)
    (hdlen : (utf8Bytes (computedDigest hmacSha1Hex secret req)).length = 45)
    (hslen : (utf8Bytes (req.eventSig.getD "")).length ≠ 45) :
    ∀ (jsonParse : List Nat → Option J)
      (handler : GitHubWebhookRequest J → Except E Unit),
      routeHandler hmacSha1Hex jsonParse handler secret req =
        ([], Except.error GatewayError.lengthMismatch) := by
  intro jsonParse handler
  have hne : (utf8Bytes (req.eventSig.getD "")).length ≠
      (utf8Bytes (computedDigest hmacSha1Hex secret req)).length := by
    rw [hdlen]; exact hslen
  simp [routeHandler, hpresent, hne]

/-- C9 witness: a concrete 9-byte signature header makes the gateway
propagate the comparison error instead of responding. -/
theorem gateway_signature_length_mismatch_throws_witness :
    routeHandler hmac0 jsonParse0 handler0 "s" reqSigOdd =
      ([], Except.error GatewayError.lengthMismatch) :=
  gateway_signature_length_mismatch_throws hmac0 "s" reqSigOdd
    (by decide) (by decide) (by decide) jsonParse0 handler0

/-!
Claims about the random secret resource provider.
-/

/-- C5: evaluating the random provider's `check` at the positive
byteCount 32 — the very value the composite component passes — yields
the failure "byteCount should be a positive number".  The negated
`isNaN` test fires on every number, so a positive `byteCount` is never
accepted with an empty failure list, contradicting the provider's own
failure message. -/
theorem random_check_rejects_positive_byteCount :
    (0 : Int) < 32 ∧
    RandomProvider.check (JSValue.num 32) =
      [{ property := "byteCount", reason := "\x27byteCount\x27 should be a positive number" }] :=
  ⟨by decide, rfl⟩

/-- C4: evaluating the random provider's `create` with a faithful
random source (`rnd0 k` has exactly `k` bytes) at byteCount 16: the
result is identical to the result at byteCount 99 because `create`
never consults its inputs, the encoded value decodes to 32 bytes
rather than 16 because the source passes the literal 32 to
`crypto.randomBytes`, and the resource id does equal the output
value. -/
theorem random_create_draws_32_bytes_regardless_of_byteCount :
    (rnd0 16).length = 16 ∧ (rnd0 32).length = 32 ∧
    RandomProvider.create rnd0 (JSValue.num 16) =
      RandomProvider.create rnd0 (JSValue.num 99) ∧
    (base64Decode (RandomProvider.create rnd0 (JSValue.num 16)).outs.value).length = 32 ∧
    (RandomProvider.create rnd0 (JSValue.num 16)).id =
      (RandomProvider.create rnd0 (JSValue.num 16)).outs.value :=
  ⟨by decide, by decide, rfl, by decide, rfl⟩

/-!
Claims about the webhook registration resource provider.
-/

/-- C6: which property names appear among the failures returned by the
webhook provider's `check` is characterized exactly, for every pair of
property bags: "url" appears iff `url` is undefined, "org" appears iff
`org` is defined together with `owner` or `repo`, "repo" appears iff
`owner` is defined without `repo`, and "owner" appears iff `repo` is
defined without `owner`.  All applicable failures are therefore
collected together rather than only the first. -/
theorem webhook_check_failure_characterization (olds news : WebhookInputs) :
    ("url" ∈ (GithubWebhookProvider.check olds news).map CheckFailure.property ↔
      news.url = none) ∧
    ("org" ∈ (GithubWebhookProvider.check olds news).map CheckFailure.property ↔
      (news.org ≠ none ∧ (news.owner ≠ none ∨ news.repo ≠ none))) ∧
    ("repo" ∈ (GithubWebhookProvider.check olds news).map CheckFailure.property ↔
      (news.owner ≠ none ∧ news.repo = none)) ∧
    ("owner" ∈ (GithubWebhookProvider.check olds news).map CheckFailure.property ↔
      (news.repo ≠ none ∧ news.owner = none)) := by
  unfold GithubWebhookProvider.check
  split_ifs <;> simp_all

/-- C6 witness: on a concrete input with `url` missing, `org` set
together with `owner`, and `repo` unset, the failure list names "url",
"org" and "repo" all at once. -/
theorem webhook_check_failure_characterization_witness :
    "url" ∈ (GithubWebhookProvider.check newsConflict newsConflict).map CheckFailure.property ∧
    "org" ∈ (GithubWebhookProvider.check newsConflict newsConflict).map CheckFailure.property ∧
    "repo" ∈ (GithubWebhookProvider.check newsConflict newsConflict).map CheckFailure.property :=
  ⟨(webhook_check_failure_characterization newsConflict newsConflict).1.mpr (by decide),
   (webhook_check_failure_characterization newsConflict newsConflict).2.1.mpr (by decide),
   (webhook_check_failure_characterization newsConflict newsConflict).2.2.1.mpr (by decide)⟩

/-- C7: the replace set returned by the webhook provider's `diff`
contains "owner", "repo" and "org" exactly when the corresponding old
and new property values differ, contains nothing else, and is empty
whenever those three properties agree — in particular for pairs
differing only in `events` or `url`. -/
theorem webhook_diff_replace_characterization (olds news : WebhookInputs) :
    ("owner" ∈ GithubWebhookProvider.diff olds news ↔ olds.owner ≠ news.owner) ∧
    ("repo" ∈ GithubWebhookProvider.diff olds news ↔ olds.repo ≠ news.repo) ∧
    ("org" ∈ GithubWebhookProvider.diff olds news ↔ olds.org ≠ news.org) ∧
    (∀ p, p ∈ GithubWebhookProvider.diff olds news →
      p = "owner" ∨ p = "repo" ∨ p = "org") ∧
    (olds.owner = news.owner → olds.repo = news.repo → olds.org = news.org →
      GithubWebhookProvider.diff olds news = []) := by
  unfold GithubWebhookProvider.diff
  split_ifs <;> simp_all

/-- C7 witness: two concrete repository-scoped bags differing only in
their event list produce an empty replace set. -/
theorem webhook_diff_replace_characterization_witness :
    GithubWebhookProvider.diff inputsRepo inputsRepoEvents = [] :=
  (webhook_diff_replace_characterization inputsRepo inputsRepoEvents).2.2.2.2 rfl rfl rfl

/-- C8 counterexample: a concrete input with `org` set (to the empty
string) and `owner`/`repo` unset passes `check` with no failures, yet
`create` invokes the repository-level endpoint: against a REST client
whose organization endpoint assigns hook id 1 and whose repository
endpoint assigns hook id 7, the returned remote id is "7". -/
theorem webhook_create_empty_org_cex :
    inputsEmptyOrg.org ≠ none ∧
    GithubWebhookProvider.check inputsEmptyOrg inputsEmptyOrg = [] ∧
    GithubWebhookProvider.create octokit0 inputsEmptyOrg =
      Except.ok { id := "7" } ∧
    (octokit0 (HookApiCall.orgCreateHook inputsEmptyOrg.org
      { name := "web", events := inputsEmptyOrg.events,
        config := { content_type := "json", url := inputsEmptyOrg.url,
                    secret := inputsEmptyOrg.secret } })).dataId = 1 :=
  ⟨by decide, rfl, rfl, rfl⟩

/-- C8 (amended): the webhook provider's `create` invokes the
organization-level hook-creation endpoint when `org` is truthy (a
defined, non-empty string) and the repository-level endpoint otherwise
— in particular an empty `org` string selects the repository-level
endpoint — attaching the event list and the fixed transport
configuration (JSON content type, target URL, shared secret); it
raises a failure carrying the full response for any status other than
the 201 success status of hook creation, and on success returns the
remote-assigned hook identifier, rendered as a string, as the resource
id. -/
theorem webhook_create_endpoint_selection_and_status
    (octokit : HookApiCall → HookResponse) (inputs : WebhookInputs) :
    (jsTruthy inputs.org = true →
      GithubWebhookProvider.create octokit inputs =
        (let res := octokit (HookApiCall.orgCreateHook inputs.org
          { name := "web", events := inputs.events,
            config := { content_type := "json", url := inputs.url,
                        secret := inputs.secret } });
        if res.status ≠ 201 then Except.error (CreateError.badResponse res)
        else Except.ok { id := toString res.dataId })) ∧
    (jsTruthy inputs.org = false →
      GithubWebhookProvider.create octokit inputs =
        (let res := octokit (HookApiCall.repoCreateHook inputs.owner inputs.repo
          { name := "web", events := inputs.events,
            config := { content_type := "json", url := inputs.url,
                        secret := inputs.secret } });
        if res.status ≠ 201 then Except.error (CreateError.badResponse res)
        else Except.ok { id := toString res.dataId })) := by
  constructor <;> intro h <;> simp [GithubWebhookProvider.create, h]

/-- C8 witness: on a concrete organization-scoped input with `org` set
to a non-empty string, `create` returns the organization endpoint's
hook id. -/
theorem webhook_create_endpoint_selection_and_status_witness :
    GithubWebhookProvider.create octokit0 inputsOrg = Except.ok { id := "1" } :=
  ((webhook_create_endpoint_selection_and_status octokit0 inputsOrg).1 rfl).trans rfl

/-- C10: the webhook provider's `update` always issues the
repository-scoped edit call, with the hook id and with `owner`,
`repo`, `events` and `url` taken from the proposed properties and a
config without a secret, and returns the response's hook id as its
output.  The result is unchanged under any recorded (old) properties,
any proposed `secret`, any proposed `org`, and any response status, so
the recorded scope is ignored, the secret is not resent, and no
response status is inspected — `update` never raises on a non-success
status. -/
theorem webhook_update_always_repo_edit_no_secret_no_status_check
    (octokit : EditHookParams → HookResponse) (id : String)
    (olds news : WebhookInputs) :
    GithubWebhookProvider.update octokit id olds news =
      { outs := { id := (octokit
          { hook_id := id, owner := news.owner, repo := news.repo,
            events := news.events,
            config := { content_type := "json", url := news.url } }).dataId } } ∧
    (∀ olds2, GithubWebhookProvider.update octokit id olds2 news =
      GithubWebhookProvider.update octokit id olds news) ∧
    (∀ s, GithubWebhookProvider.update octokit id olds { news with secret := s } =
      GithubWebhookProvider.update octokit id olds news) ∧
    (∀ o, GithubWebhookProvider.update octokit id olds { news with org := o } =
      GithubWebhookProvider.update octokit id olds news) ∧
    (∀ st : Nat, GithubWebhookProvider.update
        (fun p => { status := st, dataId := (octokit p).dataId }) id olds news =
      GithubWebhookProvider.update octokit id olds news) :=
  ⟨rfl, fun _ => rfl, fun _ => rfl, fun _ => rfl, fun _ => rfl⟩
